import Mathlib

/-!
# Verification of the bi-tools-supply-chain extraction-and-validation pipeline

A shallow embedding of the scraping/validation core of the repository:

* `src/scraping/parsers.py` — numeric/text parsers (`parse_price`, `parse_rating`,
  `parse_reviews_count`), per-field extraction (`extract_value`) and the card
  extractor `parse_product_card`;
* `src/scraping/run_scraper.py` — the pagination crawl loop `scrape_listing`
  with its acceptance filter;
* `src/quality/validations.py` — `validate_products` and `ValidationReport`.

Strings are modelled as `List Char`.  Python's binary floats are modelled as
exact scaled decimals (`PyDec`, an integer numerator with a power-of-ten
denominator), since every number the parsers produce comes from a decimal
literal; `PyDec.toRat` gives the rational value used in specifications.
The DOM is modelled as finite association lists: a card exposes attributes,
first-match CSS lookups and its hyperlink hrefs, which is the entire interface
the extractor uses.
-/

/-- Characters of a string literal, the working representation of Python `str`. -/
def str (s : String) : List Char := s.data

/-- Python `str.isspace` on the characters relevant here (ASCII whitespace and
NBSP), the character class stripped by `str.strip()`. -/
def pyIsSpace (c : Char) : Bool :=
  c.toNat = 32 || c.toNat = 9 || c.toNat = 10 || c.toNat = 13 ||
  c.toNat = 11 || c.toNat = 12 || c.toNat = 160

/-- Python `str.strip()`: drop leading and trailing whitespace. -/
def pyStrip (l : List Char) : List Char :=
  ((l.dropWhile pyIsSpace).reverse.dropWhile pyIsSpace).reverse

/-- The non-breaking-space character replaced by `parse_price`. -/
def nbspChar : Char := Char.ofNat 160

/-- Tail of a `_money_re` match after its leading digit: greedy `[\d,]*`, then
an optional `.`, then greedy `\d*`.  Since every part of this tail can match
the empty string, greedy matching is plain maximal munch, no backtracking. -/
def moneyTail (l : List Char) : List Char :=
  let a := l.takeWhile (fun c => c.isDigit || c = ',')
  let r := l.dropWhile (fun c => c.isDigit || c = ',')
  match r with
  | '.' :: r2 => a ++ '.' :: r2.takeWhile Char.isDigit
  | _ => a

/-- Match of `_money_re = ([-+]?\d[\d,]*\.?\d*)` anchored at the head of `l`.
A sign must be followed by a digit; with no sign the head must be a digit. -/
def moneyAt : List Char → Option (List Char)
  | [] => none
  | c :: rest =>
    if c = '-' || c = '+' then
      match rest with
      | [] => none
      | d :: rest2 => if d.isDigit then some (c :: d :: moneyTail rest2) else none
    else if c.isDigit then some (c :: moneyTail rest)
    else none

/-- `_money_re.search`: leftmost match (Python `re.search` semantics). -/
def moneySearch : List Char → Option (List Char)
  | [] => none
  | c :: rest =>
    match moneyAt (c :: rest) with
    | some m => some m
    | none => moneySearch rest

/-- `_int_re.search` for `(\d+)`: the first maximal run of digits. -/
def intSearch (l : List Char) : Option (List Char) :=
  match l.dropWhile (fun c => !c.isDigit) with
  | [] => none
  | d :: rest => some ((d :: rest).takeWhile Char.isDigit)

/-- Exact scaled decimal `num / 10 ^ scale`, the model of the Python numbers
produced by `Decimal`/`float` in the parsers. -/
structure PyDec where
  num : ℤ
  scale : ℕ
  deriving DecidableEq, Repr

/-- Rational value of a scaled decimal. -/
def PyDec.toRat (d : PyDec) : ℚ := (d.num : ℚ) / (10 : ℚ) ^ d.scale

/-- Value of a digit string, as `int()` computes it. -/
def digitsToNat (l : List Char) : ℕ :=
  l.foldl (fun n c => 10 * n + (c.toNat - 48)) 0

/-- Unsigned decimal literal `digits [. digits]` as a scaled decimal. -/
def decOfDigits (l : List Char) : PyDec :=
  let ip := l.takeWhile Char.isDigit
  let r := l.dropWhile Char.isDigit
  match r with
  | '.' :: fr => ⟨(digitsToNat ip : ℤ) * 10 ^ fr.length + digitsToNat fr, fr.length⟩
  | _ => ⟨(digitsToNat ip : ℤ), 0⟩

/-- `Decimal(raw)` on a comma-free regex match: optional sign, then an
unsigned decimal literal. -/
def pyDecimal : List Char → PyDec
  | '-' :: r => ⟨-(decOfDigits r).num, (decOfDigits r).scale⟩
  | '+' :: r => decOfDigits r
  | r => decOfDigits r

/-- `parse_price` (parsers.py:88): strip; return `none` on empty; search
`_money_re` after NBSP→space replacement; drop thousands separators from the
match; parse as a decimal.  On a match the `Decimal` call cannot fail, the
commas being removed. -/
def parse_price (s : List Char) : Option PyDec :=
  let text := pyStrip s
  if text = [] then none
  else
    match moneySearch (text.map (fun c => if c = nbspChar then ' ' else c)) with
    | none => none
    | some m => some (pyDecimal (m.filter (fun c => c ≠ ',')))

/-- Python `round(x, 1)` (round-half-to-even) on an exact decimal: floor-divide
`10 * num` by `10 ^ scale` and adjust by the remainder's position relative to
one half.  `Int./` and `Int.%` are Euclidean, hence floor division for the
positive divisor `10 ^ scale`. -/
def pyRound1 (d : PyDec) : PyDec :=
  let p : ℤ := d.num * 10
  let t : ℤ := 10 ^ d.scale
  let q : ℤ := p / t
  let r : ℤ := p % t
  let k : ℤ :=
    if 2 * r < t then q
    else if t < 2 * r then q + 1
    else if q % 2 = 0 then q else q + 1
  ⟨k, 1⟩

/-- `parse_rating` (parsers.py:107): strip; return `none` on empty; search
`_money_re`; `Decimal` the raw match (which raises, hence `none`, when the
match kept a thousands separator — `parse_rating` does not strip commas);
clamp the value to `[0, 5]` by the two sequential `if`s of the source; round
to one decimal. -/
def parse_rating (s : List Char) : Option PyDec :=
  let text := pyStrip s
  if text = [] then none
  else
    match moneySearch text with
    | none => none
    | some m =>
      if m.contains ',' then none
      else
        let val := pyDecimal m
        let val := if val.num < 0 then (⟨0, 0⟩ : PyDec) else val
        let val := if 5 * 10 ^ val.scale < val.num then (⟨5, 0⟩ : PyDec) else val
        some (pyRound1 val)

/-- `parse_reviews_count` (parsers.py:132): strip; return `none` on empty;
remove commas; take the first digit run; `int()` it. -/
def parse_reviews_count (s : List Char) : Option ℕ :=
  let text := pyStrip s
  if text = [] then none
  else
    match intSearch (text.filter (fun c => c ≠ ',')) with
    | none => none
    | some m => some (digitsToNat m)

/-- A DOM element as the extractor sees it: its Selenium `.text`, its full
`textContent` (including nested inline tags, read via `get_text_content`), and
its attributes. -/
structure Elem where
  text : List Char
  textContent : List Char
  attrs : List (List Char × List Char)
  deriving DecidableEq, Repr

/-- A product-card element: the attributes on the card itself, the first
descendant matched by each CSS selector (`find_element` semantics, `none`
when the selector matches nothing — `_find_optional` turns the raised
`NoSuchElementException` into `None`), and the `href`s of its `a[href]`
descendants in document order. -/
structure Card where
  attrs : List (List Char × List Char)
  elems : List (List Char × Elem)
  links : List (List Char)
  deriving DecidableEq, Repr

/-- `_find_optional(card, By.CSS_SELECTOR, selector)`. -/
def findOptional (card : Card) (selector : List Char) : Option Elem :=
  card.elems.lookup selector

/-- `el.get_attribute(name)`: `none` models Python `None` for a missing
attribute. -/
def getAttribute (attrs : List (List Char × List Char)) (name : List Char) :
    Option (List Char) :=
  attrs.lookup name

/-- `_safe_text` (parsers.py:77): element text stripped, `""` when absent. -/
def safeText : Option Elem → List Char
  | some el => pyStrip el.text
  | none => []

/-- `get_text_content` (parsers.py:13): full rendered text, stripped. -/
def getTextContent (el : Elem) : List Char := pyStrip el.textContent

/-- The `Selectors` configuration dataclass (parsers.py:35), with its source
defaults. -/
structure Selectors where
  product_card : List Char := str "div.cc-product-card"
  product_url : List Char := []
  product_name : List Char := str ".cc-product-card-title .cc-text-overflow"
  product_id : List Char := str "@data-oe-item-id"
  product_sku : List Char := str ".cc-product-sku-container small span:nth-of-type(2)"
  product_sale_price : List Char := str "@data-oe-item-sale-price"
  product_list_price : List Char := str "@data-oe-item-list-price"
  product_rating : List Char := str ".bv_averageRating_component_container .bv_text"
  product_reviews_count : List Char := str ".bv_numReviews_component_container .bv_text"
  bv_aria_source : List Char := str "a.bv_main_container"
  next_page_button : List Char := str "span.cc-pagination-button.cc-next"
  deriving DecidableEq, Repr

/-- The `ProductRecord` dataclass (parsers.py:22). -/
structure ProductRecord where
  sku : List Char
  name : List Char
  price_list : Option PyDec
  price_sale : Option PyDec
  rating : Option PyDec
  reviews_count : Option ℕ
  product_url : List Char
  deriving DecidableEq, Repr

/-- `extract_value` (parsers.py:149): empty selector yields `""`; an
`@`-prefixed selector reads the named attribute off the card (`or ""`,
stripped); otherwise the first matching descendant's text, stripped, or `""`
when none matches. -/
def extract_value (card : Card) (sel : List Char) : List Char :=
  match sel with
  | [] => []
  | '@' :: attrName => pyStrip ((getAttribute card.attrs attrName).getD [])
  | _ => safeText (findOptional card sel)

/-- Python's `needle in haystack` substring test. -/
def containsSub (needle : List Char) : List Char → Bool
  | [] => needle.isEmpty
  | c :: t => needle.isPrefixOf (c :: t) || containsSub needle t

/-- First `a[href]` whose stripped `href` contains `"/product/"`
(parsers.py:257); `""` when none qualifies. -/
def firstProductLink : List (List Char) → List Char
  | [] => []
  | h :: t =>
    let href := pyStrip h
    if containsSub (str "/product/") href then href else firstProductLink t

/-- `parse_product_card` (parsers.py:217), line by line: name via
`get_text_content` on the first name-selector match (else `""`); sku via
`extract_value`; both price texts via `extract_value`, parsed only when
non-empty; the unconditional sale→list price fallback; rating/review-count
via the primary selectors, then, if either is still absent and the
`bv_aria_source` element exists, the absent ones re-parsed from its stripped
`aria-label`; best-effort product URL; sentinel `"UNKNOWN"` for an empty sku. -/
def parse_product_card (card : Card) (selectors : Selectors) : ProductRecord :=
  let name :=
    match findOptional card selectors.product_name with
    | some el => getTextContent el
    | none => []
  let sku := extract_value card selectors.product_sku
  let sale_price_text := extract_value card selectors.product_sale_price
  let list_price_text := extract_value card selectors.product_list_price
  let price_list := if list_price_text ≠ [] then parse_price list_price_text else none
  let price_sale := if sale_price_text ≠ [] then parse_price sale_price_text else none
  let price_sale := match price_sale with | none => price_list | some v => some v
  let rating := parse_rating (extract_value card selectors.product_rating)
  let reviews_count := parse_reviews_count (extract_value card selectors.product_reviews_count)
  let ratingReviews :=
    if rating.isNone || reviews_count.isNone then
      match findOptional card selectors.bv_aria_source with
      | some a =>
        let aria := pyStrip ((getAttribute a.attrs (str "aria-label")).getD [])
        ((match rating with | some v => some v | none => parse_rating aria),
         (match reviews_count with | some v => some v | none => parse_reviews_count aria))
      | none => (rating, reviews_count)
    else (rating, reviews_count)
  let product_url := firstProductLink card.links
  let sku := if sku = [] then str "UNKNOWN" else sku
  { sku := sku
    name := name
    price_list := price_list
    price_sale := price_sale
    rating := ratingReviews.1
    reviews_count := ratingReviews.2
    product_url := product_url }

/-- A card with no attributes, no matching descendants and no links. -/
def emptyCard : Card := ⟨[], [], []⟩

/-- One row of the DataFrame handed to `validate_products`: the six columns
the scraper always emits.  `none` models a pandas missing value (NaN); the
numeric columns carry arbitrary rationals, as the floats do. -/
structure Row where
  name : Option (List Char)
  sku : Option (List Char)
  price_list : Option ℚ
  price_sale : Option ℚ
  rating : Option ℚ
  reviews_count : Option ℚ
  deriving DecidableEq, Repr

/-- `name_invalid` (validations.py:35): missing, or empty after stripping. -/
def name_invalid (r : Row) : Bool :=
  match r.name with
  | none => true
  | some s => (pyStrip s).isEmpty

/-- `sku_invalid` (validations.py:39): missing, or empty after stripping. -/
def sku_invalid (r : Row) : Bool :=
  match r.sku with
  | none => true
  | some s => (pyStrip s).isEmpty

/-- `price_list_invalid` (validations.py:44): present and `≤ 0`. -/
def price_list_invalid (r : Row) : Bool :=
  match r.price_list with
  | none => false
  | some p => decide (p ≤ 0)

/-- `price_sale_invalid` (validations.py:49): present and `≤ 0`. -/
def price_sale_invalid (r : Row) : Bool :=
  match r.price_sale with
  | none => false
  | some p => decide (p ≤ 0)

/-- `rating_invalid` (validations.py:54): present and outside `[0, 5]`. -/
def rating_invalid (r : Row) : Bool :=
  match r.rating with
  | none => false
  | some v => decide (v < 0) || decide (5 < v)

/-- `reviews_invalid` (validations.py:59): present and `< 0`. -/
def reviews_count_invalid (r : Row) : Bool :=
  match r.reviews_count with
  | none => false
  | some n => decide (n < 0)

/-- The exclusion mask (validations.py:62), the disjunction of all six rules
in source order. -/
def invalid_mask (r : Row) : Bool :=
  name_invalid r || sku_invalid r || price_sale_invalid r || price_list_invalid r ||
  rating_invalid r || reviews_count_invalid r

/-- The `ValidationReport` dataclass (validations.py:7). -/
structure ValidationReport where
  total_rows : ℕ
  valid_rows : ℕ
  invalid_rows : ℕ
  invalid_reasons : List (String × ℕ)
  deriving DecidableEq, Repr

/-- `add_reason` (validations.py:29): record a reason's count only when it is
positive.  Each reason key is used by exactly one rule, so the
`reasons.get(reason, 0) +` accumulation is a plain insertion. -/
def addReason (reasons : List (String × ℕ)) (count : ℕ) (reason : String) :
    List (String × ℕ) :=
  if 0 < count then reasons ++ [(reason, count)] else reasons

/-- `validate_products` (validations.py:15): count each rule over the whole
batch independently (in source order), then exclude exactly the rows matched
by the disjunctive mask. -/
def validate_products (rows : List Row) : List Row × ValidationReport :=
  let reasons := addReason [] (rows.countP name_invalid) "invalid_name"
  let reasons := addReason reasons (rows.countP sku_invalid) "invalid_sku"
  let reasons := addReason reasons (rows.countP price_list_invalid) "invalid_price_list"
  let reasons := addReason reasons (rows.countP price_sale_invalid) "invalid_price_sale"
  let reasons := addReason reasons (rows.countP rating_invalid) "invalid_rating"
  let reasons := addReason reasons (rows.countP reviews_count_invalid) "invalid_reviews_count"
  let valid := rows.filter (fun r => !invalid_mask r)
  (valid, ⟨rows.length, valid.length, rows.countP invalid_mask, reasons⟩)

/-- Occurrence count reported for a reason code (0 when the code is absent
from the report's mapping). -/
def reasonCount (rep : ValidationReport) (reason : String) : ℕ :=
  (rep.invalid_reasons.lookup reason).getD 0

/-- The DataFrame row a scraped record becomes for validation: every column
present, numeric fields at their rational values. -/
def toRow (r : ProductRecord) : Row :=
  ⟨some r.name, some r.sku, r.price_list.map PyDec.toRat, r.price_sale.map PyDec.toRat,
   r.rating.map PyDec.toRat, r.reviews_count.map (fun n => (n : ℚ))⟩

/-- One listing page as the crawl loop observes it: the product cards in
document order, and whether the pagination control
(`selectors.next_page_button`) is present.  Clicking a present control is
modelled as succeeding and advancing to the next page of the site. -/
structure Page where
  cards : List Card
  hasNext : Bool
  deriving DecidableEq, Repr

/-- The acceptance filter (run_scraper.py:61): truthiness of
`record.name or record.product_url`. -/
def accept (r : ProductRecord) : Bool := !r.name.isEmpty || !r.product_url.isEmpty

/-- The body of `scrape_listing`'s `for page in range(1, max_pages + 1)` loop
(run_scraper.py:48).  The remaining site pages drive the recursion; `page` is
the loop counter.  A page with no cards makes `wait.until` raise a timeout
that propagates to the caller (`Except.error`).  Each card is extracted and
kept when the acceptance filter passes (per-card extraction is total here, so
the per-card `except` branch is unreachable); the dead `if page == 0: break`
of the source is kept verbatim.  A missing pagination control ends the crawl;
a present one is clicked and the loop continues on the next site page. -/
def scrapePages (selectors : Selectors) (maxPages : ℕ) :
    List Page → ℕ → List ProductRecord → Except Unit (List ProductRecord)
  | [], page, acc =>
    if maxPages < page then .ok acc else .error ()
  | p :: rest, page, acc =>
    if maxPages < page then .ok acc
    else if p.cards.isEmpty then .error ()
    else
      let acc2 := acc ++ ((p.cards.map (fun c => parse_product_card c selectors)).filter accept)
      if page = 0 then .ok acc2
      else if p.hasNext then scrapePages selectors maxPages rest (page + 1) acc2
      else .ok acc2

/-- `scrape_listing` (run_scraper.py:30) over an abstract site: run the page
loop from counter 1 with an empty result list. -/
def scrape_listing (site : List Page) (selectors : Selectors) (maxPages : ℕ) :
    Except Unit (List ProductRecord) :=
  scrapePages selectors maxPages site 1 []

/-- The rating/review-count pair as computed inside `parse_product_card`
(parsers.py:231 and the fallback block at 238): primary-selector parses,
then, when either is absent and the `bv_aria_source` element exists, the
absent ones re-parsed from its stripped `aria-label`. -/
def ratingReviewsOf (card : Card) (selectors : Selectors) : Option PyDec × Option ℕ :=
  let rating := parse_rating (extract_value card selectors.product_rating)
  let reviews_count := parse_reviews_count (extract_value card selectors.product_reviews_count)
  if rating.isNone || reviews_count.isNone then
    match findOptional card selectors.bv_aria_source with
    | some a =>
      let aria := pyStrip ((getAttribute a.attrs (str "aria-label")).getD [])
      ((match rating with | some v => some v | none => parse_rating aria),
       (match reviews_count with | some v => some v | none => parse_reviews_count aria))
    | none => (rating, reviews_count)
  else (rating, reviews_count)

/-- Card for the aria-label fallback scenario: no primary rating/review
elements, only the Bazaarvoice anchor carrying the combined label. -/
def cardAria : Card :=
  ⟨[], [(str "a.bv_main_container",
        ⟨[], [], [(str "aria-label", str "4.6 out of 5 stars, 812 reviews")]⟩)], []⟩

/-- Card with an empty sale-price attribute and list-price text `$10.00`. -/
def cardPrices : Card :=
  ⟨[(str "data-oe-item-sale-price", []), (str "data-oe-item-list-price", str "$10.00")],
   [], []⟩

/-- Card with an empty name, visible sku `ABC123` and a product link. -/
def cardHusk : Card :=
  ⟨[], [(str ".cc-product-sku-container small span:nth-of-type(2)",
        ⟨str "ABC123", str "ABC123", []⟩)],
   [str "https://shop.example/product/42"]⟩

/-- The record `cardHusk` extracts to. -/
def recHusk : ProductRecord :=
  ⟨str "ABC123", [], none, none, none, none, str "https://shop.example/product/42"⟩

/-- The single row of the double-reason scenario: valid name, sku, sale price
and review count, but `price_list = -5` and `rating = 6`. -/
def rowDouble : Row :=
  ⟨some (str "Widget"), some (str "SKU-1"), some (-5), some 10, some 6, some 3⟩

/-! ## Sanity checks from §8 of the specification -/

example : parse_price (str "$1,299.99") = some ⟨129999, 2⟩ := by decide
example : parse_price (str "CAD 24.50") = some ⟨2450, 2⟩ := by decide
example : parse_price (str "") = none := by decide
example : parse_reviews_count (str "(1,024 reviews)") = some 1024 := by decide
example : parse_reviews_count (str "none") = none := by decide
example :
    parse_product_card emptyCard {} =
      ⟨str "UNKNOWN", [], none, none, none, none, []⟩ := by decide

/-! ## Projection lemmas for `parse_product_card` -/

theorem ppc_sku (card : Card) (selectors : Selectors) :
    (parse_product_card card selectors).sku =
      (if extract_value card selectors.product_sku = [] then str "UNKNOWN"
       else extract_value card selectors.product_sku) := rfl

theorem ppc_name (card : Card) (selectors : Selectors) :
    (parse_product_card card selectors).name =
      (match findOptional card selectors.product_name with
       | some el => getTextContent el
       | none => []) := rfl

theorem ppc_price_list (card : Card) (selectors : Selectors) :
    (parse_product_card card selectors).price_list =
      (if extract_value card selectors.product_list_price ≠ [] then
        parse_price (extract_value card selectors.product_list_price)
       else none) := rfl

theorem ppc_price_sale (card : Card) (selectors : Selectors) :
    (parse_product_card card selectors).price_sale =
      (match (if extract_value card selectors.product_sale_price ≠ [] then
                parse_price (extract_value card selectors.product_sale_price)
              else none) with
       | none => (parse_product_card card selectors).price_list
       | some v => some v) := rfl

theorem ppc_rating (card : Card) (selectors : Selectors) :
    (parse_product_card card selectors).rating = (ratingReviewsOf card selectors).1 := rfl

theorem ppc_reviews_count (card : Card) (selectors : Selectors) :
    (parse_product_card card selectors).reviews_count =
      (ratingReviewsOf card selectors).2 := rfl

theorem ppc_product_url (card : Card) (selectors : Selectors) :
    (parse_product_card card selectors).product_url = firstProductLink card.links := rfl

/-! ## Crawl-loop lemmas -/

theorem scrapePages_past_cap (selectors : Selectors) (maxPages : ℕ) (pages : List Page)
    (page : ℕ) (acc : List ProductRecord) (h : maxPages < page) :
    scrapePages selectors maxPages pages page acc = .ok acc := by
  cases pages <;> simp [scrapePages, h]

/-- C5: with a page cap of 1, the crawl processes exactly the first page's
cards — whatever `p.hasNext` is and whatever further pages exist — returning
the acceptance-filtered extraction of page one. -/
theorem crawl_cap_one_processes_one_page (selectors : Selectors) (p : Page)
    (rest : List Page) (h : p.cards ≠ []) :
    scrape_listing (p :: rest) selectors 1 =
      .ok ((p.cards.map (fun c => parse_product_card c selectors)).filter accept) := by
  have hc : p.cards.isEmpty = false := by
    cases hcc : p.cards with
    | nil => exact absurd hcc h
    | cons a t => rfl
  unfold scrape_listing scrapePages
  simp only [hc, Nat.lt_irrefl, if_false, Bool.false_eq_true, one_ne_zero, List.nil_append]
  cases hp : p.hasNext <;>
    simp [scrapePages_past_cap]

/-- Witness for C5 at a concrete two-page site whose first page holds one
card and has a pagination control. -/
theorem crawl_cap_one_processes_one_page_witness :
    scrape_listing [⟨[emptyCard], true⟩, ⟨[emptyCard], true⟩] {} 1 =
      .ok (([emptyCard].map (fun c => parse_product_card c {})).filter accept) :=
  crawl_cap_one_processes_one_page {} ⟨[emptyCard], true⟩ [⟨[emptyCard], true⟩]
    (by decide)

/-- C9: the extracted sku is never empty; when the selector's trimmed text is
empty the sentinel `"UNKNOWN"` is substituted (and otherwise the trimmed text
is kept); extraction always yields a record, so no record is dropped for a
missing sku. -/
theorem extractor_sku_sentinel (card : Card) (selectors : Selectors) :
    (parse_product_card card selectors).sku ≠ [] ∧
    (extract_value card selectors.product_sku = [] →
      (parse_product_card card selectors).sku = str "UNKNOWN") ∧
    (extract_value card selectors.product_sku ≠ [] →
      (parse_product_card card selectors).sku = extract_value card selectors.product_sku) := by
  rw [ppc_sku]
  by_cases h : extract_value card selectors.product_sku = [] <;>
    simp [h, str]

/-- Witness for C9 at the empty card (no sku text at all). -/
theorem extractor_sku_sentinel_witness :
    (parse_product_card emptyCard {}).sku ≠ [] ∧
    (parse_product_card emptyCard {}).sku = str "UNKNOWN" :=
  ⟨(extractor_sku_sentinel emptyCard {}).1,
   (extractor_sku_sentinel emptyCard {}).2.1 (by decide)⟩

/-- C4: `price_sale` can only be absent when `price_list` is; whenever parsing
the sale-price text yields nothing the parsed list price is substituted
unconditionally; and on a card with empty sale-price text and list-price text
`$10.00` both prices come out as the same decimal, worth exactly 10. -/
theorem price_sale_falls_back_to_list (card : Card) (selectors : Selectors) :
    ((parse_product_card card selectors).price_sale = none →
      (parse_product_card card selectors).price_list = none) ∧
    (parse_price (extract_value card selectors.product_sale_price) = none →
      (parse_product_card card selectors).price_sale =
        (parse_product_card card selectors).price_list) ∧
    ((parse_product_card cardPrices {}).price_sale = some ⟨1000, 2⟩ ∧
     (parse_product_card cardPrices {}).price_list = some ⟨1000, 2⟩ ∧
     PyDec.toRat ⟨1000, 2⟩ = 10) := by
  refine ⟨?_, ?_, by decide, by decide, by norm_num [PyDec.toRat]⟩
  · rw [ppc_price_sale]
    cases hs : (if extract_value card selectors.product_sale_price ≠ [] then
        parse_price (extract_value card selectors.product_sale_price) else none) <;>
      simp
  · intro h
    rw [ppc_price_sale]
    by_cases he : extract_value card selectors.product_sale_price = [] <;>
      simp [he, h]

/-- Witness for C4 at the concrete card of its example. -/
theorem price_sale_falls_back_to_list_witness :
    (parse_product_card cardPrices {}).price_sale =
      (parse_product_card cardPrices {}).price_list :=
  (price_sale_falls_back_to_list cardPrices {}).2.1 (by decide)

/-- C1 counterexample: on the exact fallback label of the claim's example the
extractor returns a review count of 4 — the first digit run of the blob,
taken from the "4" of "4.6" — not 812. -/
theorem aria_fallback_example_not_812 :
    (parse_product_card cardAria {}).reviews_count = some 4 ∧
    (parse_product_card cardAria {}).reviews_count ≠ some 812 := by decide

/-- C1 (amended): when both primary parses fail and the fallback element
exists, the extractor re-runs `parse_rating` and `parse_reviews_count` on the
element's stripped `aria-label`; on the label `"4.6 out of 5 stars, 812
reviews"` this yields rating 4.6 and review count 4 (the first digit run of
the blob), not 812. -/
theorem aria_fallback_reparses_label (card : Card) (selectors : Selectors) (a : Elem)
    (h1 : parse_rating (extract_value card selectors.product_rating) = none)
    (h2 : parse_reviews_count (extract_value card selectors.product_reviews_count) = none)
    (h3 : findOptional card selectors.bv_aria_source = some a) :
    ((parse_product_card card selectors).rating =
       parse_rating (pyStrip ((getAttribute a.attrs (str "aria-label")).getD [])) ∧
     (parse_product_card card selectors).reviews_count =
       parse_reviews_count (pyStrip ((getAttribute a.attrs (str "aria-label")).getD []))) ∧
    ((parse_product_card cardAria {}).rating = some ⟨46, 1⟩ ∧
     PyDec.toRat ⟨46, 1⟩ = 23 / 5 ∧
     (parse_product_card cardAria {}).reviews_count = some 4) := by
  refine ⟨?_, by decide, by norm_num [PyDec.toRat], by decide⟩
  rw [ppc_rating, ppc_reviews_count]
  unfold ratingReviewsOf
  simp [h1, h2, h3]

/-- Witness for C1's amended theorem at the concrete fallback card. -/
theorem aria_fallback_reparses_label_witness :
    (parse_product_card cardAria {}).rating =
      parse_rating (pyStrip ((getAttribute
        [(str "aria-label", str "4.6 out of 5 stars, 812 reviews")]
        (str "aria-label")).getD [])) ∧
    (parse_product_card cardAria {}).reviews_count =
      parse_reviews_count (pyStrip ((getAttribute
        [(str "aria-label", str "4.6 out of 5 stars, 812 reviews")]
        (str "aria-label")).getD [])) :=
  (aria_fallback_reparses_label cardAria {}
    ⟨[], [], [(str "aria-label", str "4.6 out of 5 stars, 812 reviews")]⟩
    (by decide) (by decide) (by decide)).1

/-- C6: the acceptance filter keeps a record iff its name or its product URL
is non-empty (a record with only a sku fails it); the name-less, sku-carrying,
URL-carrying record of the example survives the crawl loop, is then excluded
by the validator with the `invalid_name` counter at exactly 1, and the valid
set is empty. -/
theorem accept_filter_vs_validator :
    (∀ r : ProductRecord, accept r = true ↔ (r.name ≠ [] ∨ r.product_url ≠ [])) ∧
    accept ⟨str "ABC123", [], none, none, none, none, []⟩ = false ∧
    scrape_listing [⟨[cardHusk], false⟩] {} 5 = .ok [recHusk] ∧
    accept recHusk = true ∧
    validate_products [toRow recHusk] = ([], ⟨1, 0, 1, [("invalid_name", 1)]⟩) := by
  refine ⟨?_, by decide, by rfl, by decide, by decide⟩
  intro r
  simp [accept, List.isEmpty_iff]

/-- Links none of which contain the product marker are all skipped. -/
theorem firstProductLink_eq_nil (links : List (List Char))
    (h : ∀ l ∈ links, containsSub (str "/product/") (pyStrip l) = false) :
    firstProductLink links = [] := by
  induction links with
  | nil => rfl
  | cons a t ih =>
    have ha := h a (List.mem_cons_self a t)
    simp only [firstProductLink, ha, Bool.false_eq_true, if_false]
    exact ih fun x hx => h x (List.mem_cons_of_mem a hx)

/-- C7: per-field failure never aborts the record — a missing name element, a
missing or empty price attribute, unparseable rating/review text with no
fallback element, and the absence of any product link each degrade to `""` or
`none` in the record `parse_product_card` (a total function) returns. -/
theorem extractor_degrades_per_field (card : Card) (selectors : Selectors) :
    (findOptional card selectors.product_name = none →
      (parse_product_card card selectors).name = []) ∧
    (extract_value card selectors.product_list_price = [] →
      (parse_product_card card selectors).price_list = none) ∧
    (extract_value card selectors.product_sale_price = [] →
      extract_value card selectors.product_list_price = [] →
      (parse_product_card card selectors).price_sale = none) ∧
    (parse_rating (extract_value card selectors.product_rating) = none →
      findOptional card selectors.bv_aria_source = none →
      (parse_product_card card selectors).rating = none) ∧
    (parse_reviews_count (extract_value card selectors.product_reviews_count) = none →
      findOptional card selectors.bv_aria_source = none →
      (parse_product_card card selectors).reviews_count = none) ∧
    ((∀ l ∈ card.links, containsSub (str "/product/") (pyStrip l) = false) →
      (parse_product_card card selectors).product_url = []) := by
  refine ⟨?_, ?_, ?_, ?_, ?_, ?_⟩
  · intro h; rw [ppc_name]; simp [h]
  · intro h; rw [ppc_price_list]; simp [h]
  · intro hs hl
    rw [ppc_price_sale]
    simp only [hs, ne_eq, not_true_eq_false, if_false]
    rw [ppc_price_list]
    simp [hl]
  · intro h1 h2; rw [ppc_rating]; unfold ratingReviewsOf; simp [h1, h2]
  · intro h1 h2; rw [ppc_reviews_count]; unfold ratingReviewsOf; simp [h1, h2]
  · intro h; rw [ppc_product_url]; exact firstProductLink_eq_nil card.links h

/-- Witness for C7 at the empty card: every field degrades at once. -/
theorem extractor_degrades_per_field_witness :
    (parse_product_card emptyCard {}).name = [] ∧
    (parse_product_card emptyCard {}).price_list = none ∧
    (parse_product_card emptyCard {}).price_sale = none ∧
    (parse_product_card emptyCard {}).rating = none ∧
    (parse_product_card emptyCard {}).reviews_count = none ∧
    (parse_product_card emptyCard {}).product_url = [] := by
  have h := extractor_degrades_per_field emptyCard {}
  exact ⟨h.1 (by decide), h.2.1 (by decide), h.2.2.1 (by decide) (by decide),
    h.2.2.2.1 (by decide) (by decide), h.2.2.2.2.1 (by decide) (by decide),
    h.2.2.2.2.2 (by intro l hl; cases hl)⟩

/-! ## Parser totality on digit-free input -/

theorem mem_of_mem_pyStrip {c : Char} {l : List Char} (h : c ∈ pyStrip l) : c ∈ l := by
  unfold pyStrip at h
  rw [List.mem_reverse] at h
  have h1 := (List.dropWhile_sublist pyIsSpace).subset h
  rw [List.mem_reverse] at h1
  exact (List.dropWhile_sublist pyIsSpace).subset h1

theorem moneyAt_eq_none (l : List Char) (h : ∀ c ∈ l, c.isDigit = false) :
    moneyAt l = none := by
  cases l with
  | nil => rfl
  | cons c rest =>
    have hc : c.isDigit = false := h c (List.mem_cons_self c rest)
    unfold moneyAt
    cases rest with
    | nil => simp [hc]
    | cons d rest2 =>
      have hd : d.isDigit = false := h d (by simp)
      simp [hc, hd]

theorem moneySearch_eq_none (l : List Char) (h : ∀ c ∈ l, c.isDigit = false) :
    moneySearch l = none := by
  induction l with
  | nil => rfl
  | cons c rest ih =>
    unfold moneySearch
    rw [moneyAt_eq_none (c :: rest) h]
    exact ih fun x hx => h x (List.mem_cons_of_mem c hx)

theorem intSearch_eq_none (l : List Char) (h : ∀ c ∈ l, c.isDigit = false) :
    intSearch l = none := by
  have hd : l.dropWhile (fun c => !c.isDigit) = [] := by
    rw [List.dropWhile_eq_nil_iff]
    intro x hx
    simp [h x hx]
  unfold intSearch
  rw [hd]

/-- C8: `parse_price`, `parse_rating` and `parse_reviews_count` are total Lean
functions, and on every string containing no digit (hence no numeric
substring) each returns `none`. -/
theorem parsers_none_without_digits (s : List Char)
    (h : ∀ c ∈ s, c.isDigit = false) :
    parse_price s = none ∧ parse_rating s = none ∧ parse_reviews_count s = none := by
  have hstrip : ∀ c ∈ pyStrip s, c.isDigit = false :=
    fun c hc => h c (mem_of_mem_pyStrip hc)
  refine ⟨?_, ?_, ?_⟩
  · unfold parse_price
    by_cases he : pyStrip s = []
    · simp [he]
    · have hmap : ∀ c ∈ (pyStrip s).map (fun c => if c = nbspChar then ' ' else c),
          c.isDigit = false := by
        intro c hc
        rcases List.mem_map.mp hc with ⟨a, ha, rfl⟩
        by_cases hn : a = nbspChar
        · simp [hn]
        · simp [hn, hstrip a ha]
      simp [he, moneySearch_eq_none _ hmap]
  · unfold parse_rating
    by_cases he : pyStrip s = [] <;> simp [he, moneySearch_eq_none _ hstrip]
  · unfold parse_reviews_count
    by_cases he : pyStrip s = []
    · simp [he]
    · have hfil : ∀ c ∈ (pyStrip s).filter (fun c => !decide (c = ',')),
          c.isDigit = false :=
        fun c hc => hstrip c (List.mem_of_mem_filter hc)
      simp [he, intSearch_eq_none _ hfil]

/-- Witness for C8 on the digit-free string `"none"`. -/
theorem parsers_none_without_digits_witness :
    parse_price (str "none") = none ∧ parse_rating (str "none") = none ∧
      parse_reviews_count (str "none") = none :=
  parsers_none_without_digits (str "none") (by decide)

/-! ## Validator report arithmetic -/

theorem length_filter_not_add_countP {α : Type} (p : α → Bool) (l : List α) :
    (l.filter (fun a => !p a)).length + l.countP p = l.length := by
  induction l with
  | nil => rfl
  | cons a t ih =>
    by_cases h : p a <;> simp [List.countP_cons, h] <;> omega

/-- C10: the report is arithmetically consistent with the returned valid set —
`total_rows` is the input size, `valid_rows` the valid set's size, valid and
invalid row counts sum to the total, and the valid set is exactly the
input subsequence (in order) of rows triggering none of the six rules. -/
theorem validator_report_consistent (rows : List Row) :
    (validate_products rows).2.total_rows = rows.length ∧
    (validate_products rows).2.valid_rows = (validate_products rows).1.length ∧
    (validate_products rows).2.valid_rows + (validate_products rows).2.invalid_rows =
      rows.length ∧
    (validate_products rows).1 =
      rows.filter (fun r => !(name_invalid r || sku_invalid r || price_sale_invalid r ||
        price_list_invalid r || rating_invalid r || reviews_count_invalid r)) := by
  refine ⟨rfl, rfl, ?_, rfl⟩
  exact length_filter_not_add_countP invalid_mask rows

/-! ## Rating clamping and rounding -/

theorem pyRound1_scale (d : PyDec) : (pyRound1 d).scale = 1 := rfl

theorem pyRound1_num_bounds (d : PyDec) (h0 : 0 ≤ d.num)
    (h5 : d.num ≤ 5 * 10 ^ d.scale) :
    0 ≤ (pyRound1 d).num ∧ (pyRound1 d).num ≤ 50 := by
  have hnum : (pyRound1 d).num =
      (if 2 * (d.num * 10 % 10 ^ d.scale) < (10 : ℤ) ^ d.scale then
         d.num * 10 / 10 ^ d.scale
       else if (10 : ℤ) ^ d.scale < 2 * (d.num * 10 % 10 ^ d.scale) then
         d.num * 10 / 10 ^ d.scale + 1
       else if d.num * 10 / 10 ^ d.scale % 2 = 0 then d.num * 10 / 10 ^ d.scale
       else d.num * 10 / 10 ^ d.scale + 1) := rfl
  have htpos : (0 : ℤ) < 10 ^ d.scale := pow_pos (by norm_num) _
  have hp0 : (0 : ℤ) ≤ d.num * 10 := mul_nonneg h0 (by norm_num)
  have hp50 : d.num * 10 ≤ 50 * 10 ^ d.scale := by
    have h10 := mul_le_mul_of_nonneg_right h5 (show (0 : ℤ) ≤ 10 by norm_num)
    linarith
  have hq0 : (0 : ℤ) ≤ d.num * 10 / 10 ^ d.scale := Int.ediv_nonneg hp0 htpos.le
  have hq50 : d.num * 10 / 10 ^ d.scale ≤ 50 := by
    have h1 := Int.ediv_le_ediv htpos hp50
    rwa [Int.mul_ediv_cancel 50 (ne_of_gt htpos)] at h1
  have hqt : 10 ^ d.scale * (d.num * 10 / 10 ^ d.scale) + d.num * 10 % 10 ^ d.scale =
      d.num * 10 := Int.ediv_add_emod (d.num * 10) (10 ^ d.scale)
  have key : (10 : ℤ) ^ d.scale ≤ 2 * (d.num * 10 % 10 ^ d.scale) →
      d.num * 10 / 10 ^ d.scale ≤ 49 := by
    intro hcond
    by_contra hcontra
    push_neg at hcontra
    have h50 : d.num * 10 / 10 ^ d.scale = 50 := le_antisymm hq50 hcontra
    rw [h50] at hqt
    linarith
  rw [hnum]
  split_ifs with hA hB hC
  · exact ⟨hq0, hq50⟩
  · have := key hB.le
    constructor <;> linarith
  · exact ⟨hq0, hq50⟩
  · have ht2 : (10 : ℤ) ^ d.scale ≤ 2 * (d.num * 10 % 10 ^ d.scale) := le_of_not_lt hA
    have := key ht2
    constructor <;> linarith

/-- `parse_rating` with its `let`s expanded, for case analysis. -/
theorem parse_rating_eq (s : List Char) :
    parse_rating s =
      (if pyStrip s = [] then none
       else
         match moneySearch (pyStrip s) with
         | none => none
         | some m =>
           if m.contains ',' then none
           else
             some (pyRound1
               (if 5 * 10 ^
                     (if (pyDecimal m).num < 0 then (⟨0, 0⟩ : PyDec) else pyDecimal m).scale <
                   (if (pyDecimal m).num < 0 then (⟨0, 0⟩ : PyDec) else pyDecimal m).num
                then (⟨5, 0⟩ : PyDec)
                else if (pyDecimal m).num < 0 then (⟨0, 0⟩ : PyDec) else pyDecimal m))) := rfl

theorem parse_rating_some_bounds (s : List Char) (v : PyDec)
    (h : parse_rating s = some v) :
    0 ≤ v.num ∧ v.num ≤ 50 ∧ v.scale = 1 := by
  rw [parse_rating_eq] at h
  by_cases he : pyStrip s = []
  · rw [if_pos he] at h; cases h
  · rw [if_neg he] at h
    cases hm : moneySearch (pyStrip s) with
    | none => rw [hm] at h; cases h
    | some m =>
      rw [hm] at h
      simp at h
      obtain ⟨-, h⟩ := h
      split_ifs at h with c1 c2 c3 <;> rw [← h] <;>
        refine ⟨(pyRound1_num_bounds _ ?_ ?_).1, (pyRound1_num_bounds _ ?_ ?_).2,
          pyRound1_scale _⟩ <;>
        first
          | (norm_num; done)
          | exact le_of_not_lt c1
          | exact le_of_not_lt c3

/-- C3: every value `parse_rating` returns lies in `[0, 5]` and is an exact
multiple of one tenth (at most one decimal digit); out-of-range inputs are
clamped, `"7.2 out of 5"` yielding 5.0 and `"-3"` yielding 0.0; empty input
yields `none`. -/
theorem parse_rating_clamped_one_decimal :
    (∀ (s : List Char) (v : PyDec), parse_rating s = some v →
       0 ≤ v.toRat ∧ v.toRat ≤ 5 ∧ ∃ n : ℕ, n ≤ 50 ∧ v.toRat = (n : ℚ) / 10) ∧
    (∃ v, parse_rating (str "7.2 out of 5") = some v ∧ v.toRat = 5) ∧
    (∃ v, parse_rating (str "-3") = some v ∧ v.toRat = 0) ∧
    parse_rating (str "") = none := by
  refine ⟨?_, ⟨⟨50, 1⟩, by decide, by norm_num [PyDec.toRat]⟩,
    ⟨⟨0, 1⟩, by decide, by norm_num [PyDec.toRat]⟩, by decide⟩
  intro s v h
  obtain ⟨h0, h50, hsc⟩ := parse_rating_some_bounds s v h
  have htr : v.toRat = (v.num : ℚ) / 10 := by rw [PyDec.toRat, hsc, pow_one]
  refine ⟨?_, ?_, ⟨v.num.toNat, ?_, ?_⟩⟩
  · rw [htr]
    exact div_nonneg (by exact_mod_cast h0) (by norm_num)
  · rw [htr, div_le_iff₀ (by norm_num : (0 : ℚ) < 10)]
    have hc : (v.num : ℚ) ≤ 50 := by exact_mod_cast h50
    linarith
  · exact Int.toNat_le.mpr h50
  · rw [htr]
    congr 1
    exact_mod_cast (Int.toNat_of_nonneg h0).symm

/-- Witness for C3 at the in-range input `"4.6"`. -/
theorem parse_rating_clamped_one_decimal_witness :
    0 ≤ PyDec.toRat ⟨46, 1⟩ ∧ PyDec.toRat ⟨46, 1⟩ ≤ 5 ∧
      ∃ n : ℕ, n ≤ 50 ∧ PyDec.toRat ⟨46, 1⟩ = (n : ℚ) / 10 :=
  parse_rating_clamped_one_decimal.1 (str "4.6") ⟨46, 1⟩ (by decide)

/-! ## Reason counters are computed over all rows -/

theorem reasonCount_price_list (rows : List Row) :
    reasonCount (validate_products rows).2 "invalid_price_list" =
      rows.countP price_list_invalid := by
  simp only [validate_products, reasonCount, addReason]
  split_ifs <;> simp [List.lookup] <;> omega

theorem reasonCount_rating (rows : List Row) :
    reasonCount (validate_products rows).2 "invalid_rating" =
      rows.countP rating_invalid := by
  simp only [validate_products, reasonCount, addReason]
  split_ifs <;> simp [List.lookup] <;> omega

/-- C2: a row is kept in the valid set iff it triggers none of the six rules;
`invalid_rows` counts each excluded row exactly once (as one row, however many
rules it triggers); the per-reason counters are computed over all rows
independently of the exclusion decision; and the one-row batch with
`price_list = -5`, `rating = 6` and otherwise-valid fields increments both
`invalid_price_list` and `invalid_rating` by 1 while `invalid_rows` is 1. -/
theorem validator_rules_and_reason_independence :
    (∀ rows : List Row, ∀ r ∈ rows,
       (r ∈ (validate_products rows).1 ↔
         ¬(name_invalid r = true ∨ sku_invalid r = true ∨ price_sale_invalid r = true ∨
           price_list_invalid r = true ∨ rating_invalid r = true ∨
           reviews_count_invalid r = true))) ∧
    (∀ rows : List Row,
       (validate_products rows).2.invalid_rows = rows.countP invalid_mask) ∧
    (∀ rows : List Row,
       reasonCount (validate_products rows).2 "invalid_price_list" =
           rows.countP price_list_invalid ∧
         reasonCount (validate_products rows).2 "invalid_rating" =
           rows.countP rating_invalid) ∧
    validate_products [rowDouble] =
      ([], ⟨1, 0, 1, [("invalid_price_list", 1), ("invalid_rating", 1)]⟩) := by
  refine ⟨?_, fun rows => rfl,
    fun rows => ⟨reasonCount_price_list rows, reasonCount_rating rows⟩, by decide⟩
  intro rows r hr
  show r ∈ rows.filter (fun r => !invalid_mask r) ↔ _
  rw [List.mem_filter]
  simp [hr, invalid_mask]
  tauto

/-- Witness for C2 at the one-row batch of its example. -/
theorem validator_rules_and_reason_independence_witness :
    rowDouble ∈ (validate_products [rowDouble]).1 ↔
      ¬(name_invalid rowDouble = true ∨ sku_invalid rowDouble = true ∨
        price_sale_invalid rowDouble = true ∨ price_list_invalid rowDouble = true ∨
        rating_invalid rowDouble = true ∨ reviews_count_invalid rowDouble = true) :=
  validator_rules_and_reason_independence.1 [rowDouble] rowDouble (by decide)
